import Mathlib

/-!
Verification of the alignment-generation driver `generate_align.py`.

The script is shallowly embedded: its locally authored logic (argument
validation, budget default-filling, punctuation-token-id derivation,
per-batch strategy dispatch, result buffering indexed by sample id, and
output-file writing) is translated into executable Lean definitions, and
the framework calls (model loading, dataset iteration, the two attention
extraction routines) are abstracted as opaque parameters of an
environment record.  Python runtime errors (failed `assert`, list
`IndexError`, `TypeError`) are modelled as explicit error values that
abort the run.
-/

namespace GenAlign

/-! ## Python string membership (`s in t` on strings is substring containment) -/

/-- `isPrefixL s t` is true when the char list `s` is a prefix of `t`. -/
def isPrefixL : List Char → List Char → Bool
  | [], _ => true
  | _ :: _, [] => false
  | a :: as, b :: bs => a == b && isPrefixL as bs

/-- `isSubL s t` is true when `s` occurs as a contiguous sublist of `t`
(true for the empty list).  This is the Python membership test on strings. -/
def isSubL (s : List Char) : List Char → Bool
  | [] => s.isEmpty
  | b :: bs => isPrefixL s (b :: bs) || isSubL s bs

/-- The Python membership test on strings: contiguous-substring containment. -/
def pyIn (s t : String) : Bool := isSubL s.data t.data

/-- `string.punctuation` from the Python standard library:
the 32 ASCII punctuation characters. -/
def punctuation : String := "!\"#$%&\x27()*+,-./:;<=>?@[\\]^_\x60\x7b|\x7d~"

/-! ## Vocabularies and punctuation-token derivation (lines 84-90) -/

/-- A vocabulary: position `w` holds the decoded string of token id `w`. -/
abbrev Dict := List String

/-- Line 87/88: `[w for w in range(len(d)) if d[w] in punc]` — the ids whose
decoded string is contained (as a substring) in `string.punctuation`. -/
def derivePuncTokens (d : Dict) : List Nat :=
  (List.range d.length).filter (fun w => pyIn (d.getD w "") punctuation)

/-- Spec-side notion (§4.3): a decoded string that is a single punctuation
character.  Used to compare the wording of the spec against the code. -/
def isSinglePunc (s : String) : Bool :=
  s.length == 1 && pyIn s punctuation

/-- The binding state of a Python local variable: never assigned, assigned
`None`, or assigned a value. -/
inductive PyBinding (α : Type) where
  | unbound
  | pyNone
  | val (a : α)
deriving DecidableEq

/-- True when no actual value is bound (unassigned or `None`). -/
def PyBinding.isAbsent {α : Type} : PyBinding α → Bool
  | .val _ => false
  | _ => true

/-- Lines 84-90: when `--print-vanilla-alignment` is set, derive the source
and target punctuation-token-id lists; otherwise `src_punc_tokens` is
assigned `None` and `tgt_punc_tokens` is left unassigned. -/
def puncStage (printVanilla : Bool) (srcDict tgtDict : Dict) :
    PyBinding (List Nat) × PyBinding (List Nat) :=
  if printVanilla then
    (.val (derivePuncTokens srcDict), .val (derivePuncTokens tgtDict))
  else
    (.pyNone, .unbound)

/-! ## Configuration (the parsed argparse namespace) -/

/-- The fields of the parsed argument namespace that the script reads. -/
structure Args where
  path : Option String
  sampling : Bool
  nbest : Nat
  beam : Nat
  replace_unk : Option String
  raw_text : Bool
  max_tokens : Option Nat
  max_sentences : Option Nat
  cpu : Bool
  print_vanilla_alignment : Bool
  decoding_path : Option String
  set_shift : Bool
  gen_subset : String
  source_lang : String
  target_lang : String
  alignment_layer : Int
  alignment_task : String
deriving DecidableEq

/-- Python runtime errors that terminate the process. -/
inductive PyError where
  | assertionError (msg : String)
  | indexError
  | typeError
deriving DecidableEq

/-- Lines 18-22: the three startup assertions, checked in order. -/
def validateArgs (a : Args) : Except String Unit :=
  if a.path.isNone then
    .error "--path required for generation!"
  else if a.sampling && !(a.nbest == a.beam) then
    .error "--sampling requires --nbest to be equal to --beam"
  else if !a.replace_unk.isNone && !a.raw_text then
    .error "--replace-unk requires a raw text dataset (--raw-text)"
  else
    .ok ()

/-- Lines 26-27: if neither budget is given, default `max_tokens` to 12000. -/
def fillDefaultBudgets (a : Args) : Args :=
  if a.max_tokens.isNone && a.max_sentences.isNone then
    { a with max_tokens := some 12000 }
  else
    a

/-! ## Batches, environment, and the results buffer -/

/-- A mini-batch produced by the framework iterator: whether it carries a
model input (the net_input key of the sample) and the sample ids it contains. -/
structure Batch where
  hasNetInput : Bool
  ids : List Nat
deriving DecidableEq

/-- One alignment-extraction routine: given the batch, the source
punctuation ids, the alignment layer, the target punctuation ids and the
alignment-task string, it yields a map from sample id to the string form
of the alignment result of that sample. -/
abbrev ExtractFn := Batch → PyBinding (List Nat) → Int → PyBinding (List Nat) → String → Nat → String

/-- The opaque external world: device availability, the two dictionaries,
the batch sequence, and the two extraction strategies
(`utils.extract_soft_alignment_2` and `…_2_noshift`). -/
structure Env where
  cudaAvailable : Bool
  srcDict : Dict
  tgtDict : Dict
  batches : List Batch
  shiftFn : ExtractFn
  noshiftFn : ExtractFn

/-- Which extraction strategy a batch was dispatched to. -/
inductive Strategy where
  | shifted
  | noshift
deriving DecidableEq

/-- Observable steps of a run, in execution order. -/
inductive Event where
  | importUserModule
  | loadDataset
  | loadModels
  | moveToCuda (batchIdx : Nat)
  | extract (batchIdx : Nat) (strat : Strategy)
  | append (sampleId : Nat) (result : String)
deriving DecidableEq

/-- True for the events recording a dispatch to an extraction strategy. -/
def isExtractEvent : Event → Bool
  | .extract _ _ => true
  | _ => false

/-- Line 96: `align_sents = [[] for _ in range(4000000)]` — the capacity of
the results buffer. -/
def capacity : Nat := 4000000

/-- The results buffer: slot `i` holds the results appended for sample id
`i`, in append order.  (Slots at or beyond `capacity` do not exist in the
Python list; `appendAt` enforces the bound.) -/
abbrev Buffer := Nat → List String

/-- The freshly allocated buffer: every slot empty. -/
def emptyBuffer : Buffer := fun _ => []

/-- Line 112: `align_sents[int(sample_id)].append(r)`.  Indexing a Python
list of length `capacity` with `sample_id ≥ capacity` raises `IndexError`. -/
def appendAt (buf : Buffer) (sampleId : Nat) (r : String) : Except PyError Buffer :=
  if sampleId < capacity then
    .ok (fun j => if j = sampleId then buf j ++ [r] else buf j)
  else
    .error .indexError

/-- Lines 110-112: the inner loop over the id list of the sample.  Buffering
happens only when both `--print-vanilla-alignment` and `--decoding-path`
are set (`doBuffer`); `alignments[int(sample_id)]` on an absent alignments
value would be a `TypeError`.  Returns the updated buffer, the events
emitted before any error, and the error if one occurred. -/
def bufferIds (doBuffer : Bool) (alignments : PyBinding (Nat → String)) :
    List Nat → Buffer → Buffer × List Event × Option PyError
  | [], buf => (buf, [], none)
  | sampleId :: rest, buf =>
    if doBuffer then
      if sampleId < capacity then
        match alignments with
        | .val f =>
          match appendAt buf sampleId (f sampleId) with
          | .ok buf1 =>
            let r := bufferIds doBuffer alignments rest buf1
            (r.1, .append sampleId (f sampleId) :: r.2.1, r.2.2)
          | .error e => (buf, [], some e)
        | _ => (buf, [], some .typeError)
      else
        (buf, [], some .indexError)
    else
      bufferIds doBuffer alignments rest buf

/-- The strategy the `--set-shift` flag selects (lines 103-106). -/
def selectStrategy (setShift : Bool) : Strategy :=
  if setShift then .shifted else .noshift

/-- Lines 98-112, one iteration of `for sample in t`.  Line 99 moves the
batch to the device (when CUDA is used) before line 100 checks for
`net_input`; a batch without model input is then skipped.  Otherwise the
flagged strategy runs (or `alignments = None`), and the ids are buffered. -/
def processBatch (a : Args) (env : Env) (useCuda : Bool)
    (puncSrc puncTgt : PyBinding (List Nat)) (batchIdx : Nat) (b : Batch)
    (buf : Buffer) : Buffer × List Event × Option PyError :=
  let cudaEvs : List Event := if useCuda then [.moveToCuda batchIdx] else []
  if !b.hasNetInput then
    (buf, cudaEvs, none)
  else
    let doBuffer := a.print_vanilla_alignment && a.decoding_path.isSome
    if a.print_vanilla_alignment then
      let strat := selectStrategy a.set_shift
      let f : Nat → String :=
        if a.set_shift then
          env.shiftFn b puncSrc a.alignment_layer puncTgt a.alignment_task
        else
          env.noshiftFn b puncSrc a.alignment_layer puncTgt a.alignment_task
      let r := bufferIds doBuffer (.val f) b.ids buf
      (r.1, cudaEvs ++ .extract batchIdx strat :: r.2.1, r.2.2)
    else
      let r := bufferIds doBuffer .pyNone b.ids buf
      (r.1, cudaEvs ++ r.2.1, r.2.2)

/-- The whole batch loop: processes the indexed batches in order, stopping
at the first error (which terminates the Python process). -/
def runBatches (a : Args) (env : Env) (useCuda : Bool)
    (puncSrc puncTgt : PyBinding (List Nat)) :
    List (Nat × Batch) → Buffer → Buffer × List Event × Option PyError
  | [], buf => (buf, [], none)
  | (i, b) :: rest, buf =>
    let r1 := processBatch a env useCuda puncSrc puncTgt i b buf
    match r1.2.2 with
    | some e => (r1.1, r1.2.1, some e)
    | none =>
      let r2 := runBatches a env useCuda puncSrc puncTgt rest r1.1
      (r2.1, r1.2.1 ++ r2.2.1, r2.2.2)

/-! ## Output writing (lines 115-122) -/

/-- Concatenation of a list of strings, in order. -/
def joinAll : List String → String
  | [] => ""
  | s :: rest => s ++ joinAll rest

/-- Lines 120-121: the text written for one slot — each result followed by
a newline, in append order. -/
def slotContent : List String → String
  | [] => ""
  | s :: rest => (s ++ "\n") ++ slotContent rest

/-- Lines 117-121: the full file content — slots visited in ascending id
order, empty slots skipped (`continue`), each result on its own line. -/
def renderBuffer (buf : Buffer) : String :=
  joinAll ((List.range capacity).map
    (fun i => if (buf i).length = 0 then "" else slotContent (buf i)))

/-- `os.path.join` for the POSIX cases this script can hit. -/
def pathJoin (dir fname : String) : String :=
  if fname.startsWith "/" then fname
  else if dir = "" || dir.endsWith "/" then dir ++ fname
  else dir ++ "/" ++ fname

/-- Line 116: the decoding path joined with the file name built from the
subset name, the source language, the character 2, the target language and
the suffix align. -/
def outputFilePath (a : Args) : String :=
  pathJoin (a.decoding_path.getD "")
    (a.gen_subset ++ "." ++ a.source_lang ++ "2" ++ a.target_lang ++ ".align")

/-! ## The whole run -/

/-- The observable outcome of one invocation of `main`: the events that
happened, the files written (path, content), and the terminating error if
the process aborted. -/
structure RunResult where
  events : List Event
  files : List (String × String)
  error : Option PyError
deriving DecidableEq

/-- The batch loop of `main`, starting from the fresh buffer, with the
punctuation bindings of lines 84-90 in scope. -/
def loopResult (a : Args) (env : Env) : Buffer × List Event × Option PyError :=
  let ps := puncStage a.print_vanilla_alignment env.srcDict env.tgtDict
  runBatches a env (env.cudaAvailable && !a.cpu) ps.1 ps.2
    env.batches.enum emptyBuffer

/-- The buffer as it stands when the batch loop finishes. -/
def loopBuffer (a : Args) (env : Env) : Buffer := (loopResult a env).1

/-- `main` (lines 17-122): assertions first; then budget default-filling;
then setup (module import, dataset load, model load); then the batch loop;
finally, when `--decoding-path` and `--print-vanilla-alignment` are both
set and no error aborted the run, the single output file is written. -/
def mainRun (a0 : Args) (env : Env) : RunResult :=
  match validateArgs a0 with
  | .error msg => { events := [], files := [], error := some (.assertionError msg) }
  | .ok _ =>
    let a := fillDefaultBudgets a0
    let setupEvs : List Event := [.importUserModule, .loadDataset, .loadModels]
    let r := loopResult a env
    match r.2.2 with
    | some e => { events := setupEvs ++ r.2.1, files := [], error := some e }
    | none =>
      if a.decoding_path.isSome && a.print_vanilla_alignment then
        { events := setupEvs ++ r.2.1
          files := [(outputFilePath a, renderBuffer r.1)]
          error := none }
      else
        { events := setupEvs ++ r.2.1, files := [], error := none }

/-- Spec-side reading of §4.7/§6: the output lines are the buffered
results, ids in ascending order, append order within an id, nothing for
empty slots. -/
def specLines (buf : Buffer) : List String :=
  (List.range capacity).flatMap (fun i => buf i)

/-- Spec-side file content: each line is the result followed by a newline. -/
def specContent (buf : Buffer) : String :=
  joinAll ((specLines buf).map (fun s => s ++ "\n"))

/-! ## Concrete configurations for concrete runs -/

/-- A minimal valid configuration: alignment extraction requested, output
directory set, running on CPU. -/
def scenarioArgs : Args where
  path := some "model.pt"
  sampling := false
  nbest := 1
  beam := 1
  replace_unk := none
  raw_text := false
  max_tokens := none
  max_sentences := none
  cpu := true
  print_vanilla_alignment := true
  decoding_path := some "out"
  set_shift := false
  gen_subset := "test"
  source_lang := "de"
  target_lang := "en"
  alignment_layer := 2
  alignment_task := "vanilla"

/-- Alignment results for the two-batch scenario of the spec: the first
batch (ids `[5]`) yields `A` for id 5; the second (ids `[2, 5]`) yields
`B` for id 2 and `C` for id 5. -/
def scenarioResults (b : Batch) : Nat → String :=
  if b.ids = [5] then fun i => if i = 5 then "A" else "?"
  else fun i => if i = 2 then "B" else if i = 5 then "C" else "?"

/-- The two-batch environment realizing that scenario, CUDA unavailable. -/
def scenarioEnv : Env where
  cudaAvailable := false
  srcDict := []
  tgtDict := []
  batches := [⟨true, [5]⟩, ⟨true, [2, 5]⟩]
  shiftFn := fun b _ _ _ _ => scenarioResults b
  noshiftFn := fun b _ _ _ _ => scenarioResults b

/-- An environment with CUDA available whose only batch is an end-of-epoch
sentinel (no `net_input`). -/
def sentinelEnv : Env where
  cudaAvailable := true
  srcDict := []
  tgtDict := []
  batches := [⟨false, []⟩]
  shiftFn := fun _ _ _ _ _ _ => ""
  noshiftFn := fun _ _ _ _ _ _ => ""

/-! ## Helper lemmas -/

theorem mem_derivePuncTokens (d : Dict) (w : Nat) :
    w ∈ derivePuncTokens d ↔ w < d.length ∧ pyIn (d.getD w "") punctuation = true := by
  simp [derivePuncTokens, List.mem_filter, List.mem_range]

theorem filter_range_singleton (n k : Nat) (p : Nat → Bool) (hk : k < n)
    (h : ∀ j, j < n → (p j = true ↔ j = k)) : (List.range n).filter p = [k] := by
  have hcongr : ∀ j ∈ List.range n, p j = (j == k) := by
    intro j hj
    rw [List.mem_range] at hj
    by_cases hjk : j = k
    · subst hjk
      have h1 : p j = true := (h j hj).mpr rfl
      simp [h1]
    · have h1 : p j = false := by
        cases hp : p j
        · rfl
        · exact absurd ((h j hj).mp hp) hjk
      have h2 : (j == k) = false := by simp [hjk]
      rw [h1, h2]
  rw [List.filter_congr hcongr, List.filter_beq,
    List.count_eq_one_of_mem (List.nodup_range n) (List.mem_range.mpr hk)]
  rfl

theorem filter_range_empty (n : Nat) (p : Nat → Bool)
    (h : ∀ j, j < n → p j = false) : (List.range n).filter p = [] := by
  refine List.filter_eq_nil_iff.mpr ?_
  intro j hj
  rw [List.mem_range] at hj
  simp [h j hj]

theorem joinAll_append (x y : List String) :
    joinAll (x ++ y) = joinAll x ++ joinAll y := by
  induction x with
  | nil => simp [joinAll, String.empty_append]
  | cons s r ih => simp [joinAll, ih, String.append_assoc]

theorem slotContent_eq_joinAll (l : List String) :
    slotContent l = joinAll (l.map (fun s => s ++ "\n")) := by
  induction l with
  | nil => rfl
  | cons s r ih => simp [slotContent, joinAll, ih]

theorem renderBuffer_eq_specContent (buf : Buffer) :
    renderBuffer buf = specContent buf := by
  unfold renderBuffer specContent specLines
  have h1 : (fun i => if (buf i).length = 0 then "" else slotContent (buf i))
      = fun i => slotContent (buf i) := by
    funext i
    cases hbi : buf i with
    | nil => simp [slotContent]
    | cons s r => simp
  rw [h1]
  generalize List.range capacity = L
  induction L with
  | nil => rfl
  | cons i L ih =>
    rw [List.flatMap_cons, List.map_cons, List.map_append, joinAll_append,
      joinAll, ih, slotContent_eq_joinAll]

/-! ## C5, C6, C10: the punctuation-token derivation -/

/-- C5 counterexample: in the vocabulary `["", "."]` the only id whose
decoded string is a single punctuation character is id 1, yet the derived
set is `[0, 1]`, not `[1]` — the empty string at id 0 is also selected. -/
theorem punc_single_char_cex :
    (∀ w, w < 2 → (isSinglePunc ((["", "."] : Dict).getD w "") = true ↔ w = 1)) ∧
    derivePuncTokens ["", "."] = [0, 1] ∧ derivePuncTokens ["", "."] ≠ [1] := by
  decide

/-- C5 (amended): the punctuation-token-id derivation is a pure function of
the vocabulary and the ASCII punctuation string that returns exactly the
ids whose decoded string is a contiguous substring of that punctuation
string; for a vocabulary in which exactly one id decodes to such a
substring, at id `k`, the derived set is `[k]`, and for a vocabulary with
no such id it is empty. -/
theorem punc_derivation_substring :
    ∀ (d : Dict),
      (∀ w, w ∈ derivePuncTokens d ↔
        w < d.length ∧ pyIn (d.getD w "") punctuation = true) ∧
      (∀ k, k < d.length →
        (∀ j, j < d.length → (pyIn (d.getD j "") punctuation = true ↔ j = k)) →
        derivePuncTokens d = [k]) ∧
      ((∀ j, j < d.length → pyIn (d.getD j "") punctuation = false) →
        derivePuncTokens d = []) := by
  intro d
  refine ⟨fun w => mem_derivePuncTokens d w, fun k hk h => ?_, fun h => ?_⟩
  · exact filter_range_singleton d.length k _ hk h
  · exact filter_range_empty d.length _ h

/-- Witness for the amended C5: a vocabulary with a single punctuation
token yields exactly its id; one with none yields the empty set. -/
theorem punc_derivation_substring_witness :
    derivePuncTokens ["a", ".", "b"] = [1] ∧ derivePuncTokens ["ab", "cd"] = [] :=
  ⟨(punc_derivation_substring ["a", ".", "b"]).2.1 1 (by decide) (by decide),
   (punc_derivation_substring ["ab", "cd"]).2.2 (by decide)⟩

/-- C6: when vanilla-alignment extraction is not requested, neither
punctuation-token set carries a value (the source one is `None`, the
target one is never assigned), and no derivation is computed from either
vocabulary — the outcome of the stage does not depend on the vocabularies. -/
theorem punc_absent_without_flag :
    ∀ (d1 d2 : Dict),
      (puncStage false d1 d2).1.isAbsent = true ∧
      (puncStage false d1 d2).2.isAbsent = true ∧
      (∀ (d1' d2' : Dict), puncStage false d1 d2 = puncStage false d1' d2') :=
  fun _ _ => ⟨rfl, rfl, fun _ _ => rfl⟩

/-- C10: membership in the derived punctuation-token-id set is decided by
substring containment in `string.punctuation`, not by being a single
punctuation character — an id decoding to the empty string is always
included, any id decoding to a contiguous substring of the punctuation
string (such as `()`, which is not a single character) is included, and
the derived set is exactly the set of ids passing that substring test. -/
theorem punc_membership_is_substring :
    (∀ (d : Dict) (w : Nat), w < d.length → d.getD w "" = "" →
      w ∈ derivePuncTokens d) ∧
    (∀ (d : Dict) (w : Nat), w < d.length →
      pyIn (d.getD w "") punctuation = true → w ∈ derivePuncTokens d) ∧
    (isSinglePunc "()" = false ∧ pyIn "()" punctuation = true) ∧
    (∀ (d : Dict) (w : Nat), w ∈ derivePuncTokens d ↔
      w < d.length ∧ pyIn (d.getD w "") punctuation = true) := by
  refine ⟨fun d w hw he => ?_, fun d w hw hp => ?_, by decide, mem_derivePuncTokens⟩
  · exact (mem_derivePuncTokens d w).mpr ⟨hw, by rw [he]; rfl⟩
  · exact (mem_derivePuncTokens d w).mpr ⟨hw, hp⟩

/-- Witness for C10: the empty-string token of `["", "x"]` and the
two-character token of `["()"]` are both selected. -/
theorem punc_membership_is_substring_witness :
    0 ∈ derivePuncTokens ["", "x"] ∧ 0 ∈ derivePuncTokens ["()"] :=
  ⟨punc_membership_is_substring.1 ["", "x"] 0 (by decide) rfl,
   punc_membership_is_substring.2.1 ["()"] 0 (by decide) (by decide)⟩

/-! ## C8: budget default-filling -/

/-- Claim C8: when neither `max_tokens` nor `max_sentences` is given, the
token budget is set to 12000 and nothing else changes; in every other
configuration both budget fields (and all others) are left untouched. -/
theorem default_budget_filling :
    ∀ (a : Args),
      (a.max_tokens = none → a.max_sentences = none →
        fillDefaultBudgets a = { a with max_tokens := some 12000 }) ∧
      (a.max_tokens ≠ none ∨ a.max_sentences ≠ none →
        fillDefaultBudgets a = a) := by
  intro a
  constructor
  · intro h1 h2
    unfold fillDefaultBudgets
    rw [if_pos]
    rw [h1, h2]
    rfl
  · intro h
    unfold fillDefaultBudgets
    rw [if_neg]
    rcases h with h | h <;> simp [Option.isNone_iff_eq_none, h]

/-- Witness for C8 at concrete configurations: both budgets unset gets the
12000 default; a set token budget is left alone. -/
theorem default_budget_filling_witness :
    fillDefaultBudgets scenarioArgs = { scenarioArgs with max_tokens := some 12000 } ∧
    fillDefaultBudgets { scenarioArgs with max_tokens := some 5 } =
      { scenarioArgs with max_tokens := some 5 } :=
  ⟨(default_budget_filling scenarioArgs).1 rfl rfl,
   (default_budget_filling { scenarioArgs with max_tokens := some 5 }).2
     (Or.inl (by decide))⟩

/-! ## C9: startup assertions -/

/-- Claim C9: a missing model path, sampling with `nbest ≠ beam`, and
unknown-token replacement without raw-text mode each abort the run at
startup with the corresponding assertion error, before any event (module
import, dataset loading, model loading, batch work) and before any file
is written. -/
theorem startup_assertions :
    ∀ (a : Args) (env : Env),
      (a.path = none →
        mainRun a env =
          { events := [], files := [],
            error := some (.assertionError "--path required for generation!") }) ∧
      (a.path ≠ none → a.sampling = true → a.nbest ≠ a.beam →
        mainRun a env =
          { events := [], files := [],
            error := some
              (.assertionError "--sampling requires --nbest to be equal to --beam") }) ∧
      (a.path ≠ none → (a.sampling = true → a.nbest = a.beam) →
        a.replace_unk ≠ none → a.raw_text = false →
        mainRun a env =
          { events := [], files := [],
            error := some
              (.assertionError "--replace-unk requires a raw text dataset (--raw-text)") }) := by
  intro a env
  refine ⟨fun h1 => ?_, fun h1 h2 h3 => ?_, fun h1 h2 h3 h4 => ?_⟩
  · have hv : validateArgs a = .error "--path required for generation!" := by
      simp [validateArgs, Option.isNone_iff_eq_none, h1]
    unfold mainRun
    rw [hv]
  · have hv : validateArgs a =
        .error "--sampling requires --nbest to be equal to --beam" := by
      simp [validateArgs, Option.isNone_iff_eq_none, h1, h2, h3]
    unfold mainRun
    rw [hv]
  · have h5 : (a.sampling && !(a.nbest == a.beam)) = false := by
      cases hs : a.sampling
      · rfl
      · simp [h2 hs]
    have hv : validateArgs a =
        .error "--replace-unk requires a raw text dataset (--raw-text)" := by
      simp [validateArgs, Option.isNone_iff_eq_none, h1, h5, h3, h4]
    unfold mainRun
    rw [hv]

/-- Witness for C9: each of the three invalid configurations aborts with
its assertion message and an empty trace. -/
theorem startup_assertions_witness :
    mainRun { scenarioArgs with path := none } scenarioEnv =
      { events := [], files := [],
        error := some (.assertionError "--path required for generation!") } ∧
    mainRun { scenarioArgs with sampling := true, nbest := 2, beam := 1 } scenarioEnv =
      { events := [], files := [],
        error := some
          (.assertionError "--sampling requires --nbest to be equal to --beam") } ∧
    mainRun { scenarioArgs with replace_unk := some "UNK" } scenarioEnv =
      { events := [], files := [],
        error := some
          (.assertionError "--replace-unk requires a raw text dataset (--raw-text)") } :=
  ⟨(startup_assertions { scenarioArgs with path := none } scenarioEnv).1 rfl,
   (startup_assertions { scenarioArgs with sampling := true, nbest := 2, beam := 1 }
      scenarioEnv).2.1 (by decide) rfl (by decide),
   (startup_assertions { scenarioArgs with replace_unk := some "UNK" }
      scenarioEnv).2.2 (by decide) (by decide) (by decide) rfl⟩

/-! ## C3: buffer capacity -/

/-- Claim C3: the results buffer has capacity 4,000,000; appending for a
sample id below the capacity succeeds and extends exactly the slot at
index = sample id, while an id at or above the capacity is not guarded
and raises the index error that terminates the run — the remaining ids of
the batch are not processed. -/
theorem buffering_capacity_bound :
    capacity = 4000000 ∧
    (∀ (buf : Buffer) (sampleId : Nat) (r : String),
      (sampleId < capacity →
        appendAt buf sampleId r =
          .ok (fun j => if j = sampleId then buf j ++ [r] else buf j)) ∧
      (capacity ≤ sampleId →
        appendAt buf sampleId r = .error .indexError)) ∧
    (∀ (f : Nat → String) (sampleId : Nat) (rest : List Nat) (buf : Buffer),
      capacity ≤ sampleId →
      bufferIds true (.val f) (sampleId :: rest) buf =
        (buf, [], some .indexError)) := by
  refine ⟨rfl, fun buf sampleId r => ⟨fun h => ?_, fun h => ?_⟩,
    fun f sampleId rest buf h => ?_⟩
  · unfold appendAt
    rw [if_pos h]
  · unfold appendAt
    rw [if_neg (Nat.not_lt.mpr h)]
  · simp [bufferIds, Nat.not_lt.mpr h]

/-- Witness for C3: id 7 is buffered into slot 7; id 4,000,000 hits the
index error, also from inside the id loop. -/
theorem buffering_capacity_bound_witness :
    appendAt emptyBuffer 7 "x" =
      .ok (fun j => if j = 7 then emptyBuffer j ++ ["x"] else emptyBuffer j) ∧
    appendAt emptyBuffer 4000000 "x" = .error .indexError ∧
    bufferIds true (.val fun _ => "x") [4000000] emptyBuffer =
      (emptyBuffer, [], some .indexError) :=
  ⟨(buffering_capacity_bound.2.1 emptyBuffer 7 "x").1 (by decide),
   (buffering_capacity_bound.2.1 emptyBuffer 4000000 "x").2 (by decide),
   buffering_capacity_bound.2.2 (fun _ => "x") 4000000 [] emptyBuffer (by decide)⟩

/-! ## Lemmas about the batch loop -/

theorem bufferIds_skip (al : PyBinding (Nat → String)) :
    ∀ (ids : List Nat) (buf : Buffer), bufferIds false al ids buf = (buf, [], none) := by
  intro ids
  induction ids with
  | nil => intro buf; rfl
  | cons i rest ih =>
    intro buf
    simpa [bufferIds] using ih buf

theorem bufferIds_events_append (doB : Bool) (al : PyBinding (Nat → String)) :
    ∀ (ids : List Nat) (buf : Buffer) (e : Event),
      e ∈ (bufferIds doB al ids buf).2.1 → ∃ i r, e = Event.append i r := by
  intro ids
  induction ids with
  | nil => intro buf e he; simp [bufferIds] at he
  | cons i rest ih =>
    intro buf e he
    cases doB with
    | false =>
      rw [bufferIds_skip] at he
      simp at he
    | true =>
      simp only [bufferIds, if_true] at he
      by_cases hcap : i < capacity
      · rw [if_pos hcap] at he
        cases al with
        | unbound => simp at he
        | pyNone => simp at he
        | val f =>
          dsimp only at he
          have happ : appendAt buf i (f i) =
              .ok (fun j => if j = i then buf j ++ [f i] else buf j) := by
            unfold appendAt
            rw [if_pos hcap]
          rw [happ] at he
          simp only [List.mem_cons] at he
          rcases he with h | h
          · exact ⟨i, f i, h⟩
          · exact ih _ e h
      · rw [if_neg hcap] at he
        simp at he

theorem filter_extract_of_appends (evs : List Event)
    (h : ∀ e ∈ evs, ∃ i r, e = Event.append i r) :
    evs.filter isExtractEvent = [] := by
  refine List.filter_eq_nil_iff.mpr ?_
  intro e he
  obtain ⟨i, r, rfl⟩ := h e he
  simp [isExtractEvent]

theorem processBatch_no_input (a : Args) (env : Env) (u : Bool)
    (ps pt : PyBinding (List Nat)) (i : Nat) (b : Batch) (buf : Buffer)
    (h : b.hasNetInput = false) :
    processBatch a env u ps pt i b buf =
      (buf, if u then [Event.moveToCuda i] else [], none) := by
  simp [processBatch, h]

theorem processBatch_no_vanilla (a : Args) (env : Env) (u : Bool)
    (ps pt : PyBinding (List Nat)) (i : Nat) (b : Batch) (buf : Buffer)
    (h : a.print_vanilla_alignment = false) :
    processBatch a env u ps pt i b buf =
      (buf, if u then [Event.moveToCuda i] else [], none) := by
  cases hb : b.hasNetInput
  · exact processBatch_no_input a env u ps pt i b buf hb
  · simp [processBatch, hb, h, bufferIds_skip]

theorem processBatch_extract_mem (a : Args) (env : Env) (u : Bool)
    (ps pt : PyBinding (List Nat)) (i : Nat) (b : Batch) (buf : Buffer)
    (hfl : a.print_vanilla_alignment = true) :
    ∀ (j : Nat) (s : Strategy),
      Event.extract j s ∈ (processBatch a env u ps pt i b buf).2.1 →
      j = i ∧ s = selectStrategy a.set_shift := by
  intro j s hmem
  cases hb : b.hasNetInput
  · rw [processBatch_no_input a env u ps pt i b buf hb] at hmem
    cases u <;> simp at hmem
  · simp only [processBatch, hb, hfl, Bool.not_true, Bool.false_eq_true,
      if_false, if_true] at hmem
    simp only [List.mem_append, List.mem_cons] at hmem
    rcases hmem with h | h | h
    · cases u <;> simp at h
    · cases h
      exact ⟨rfl, rfl⟩
    · obtain ⟨i', r', heq⟩ := bufferIds_events_append _ _ _ _ _ h
      cases heq

theorem processBatch_one_extract (a : Args) (env : Env) (u : Bool)
    (ps pt : PyBinding (List Nat)) (i : Nat) (b : Batch) (buf : Buffer)
    (hfl : a.print_vanilla_alignment = true) (hb : b.hasNetInput = true) :
    (processBatch a env u ps pt i b buf).2.1.filter isExtractEvent =
      [Event.extract i (selectStrategy a.set_shift)] := by
  simp only [processBatch, hb, hfl, Bool.not_true, Bool.false_eq_true,
    if_false, if_true]
  rw [List.filter_append]
  have h1 : (if u then [Event.moveToCuda i] else []).filter isExtractEvent = [] := by
    cases u <;> simp [isExtractEvent]
  rw [h1]
  rw [List.filter_cons]
  have h2 : isExtractEvent (Event.extract i (selectStrategy a.set_shift)) = true := rfl
  rw [if_pos h2]
  rw [filter_extract_of_appends _ (fun e he => bufferIds_events_append _ _ _ _ e he)]
  rfl

theorem runBatches_no_vanilla (a : Args) (env : Env) (u : Bool)
    (ps pt : PyBinding (List Nat)) (hfl : a.print_vanilla_alignment = false) :
    ∀ (L : List (Nat × Batch)) (buf : Buffer),
      (runBatches a env u ps pt L buf).1 = buf ∧
      (runBatches a env u ps pt L buf).2.2 = none ∧
      ∀ e ∈ (runBatches a env u ps pt L buf).2.1, ∃ i, e = Event.moveToCuda i := by
  intro L
  induction L with
  | nil =>
    intro buf
    exact ⟨rfl, rfl, fun e he => by simp [runBatches] at he⟩
  | cons hd rest ih =>
    intro buf
    obtain ⟨i, b⟩ := hd
    have hpb := processBatch_no_vanilla a env u ps pt i b buf hfl
    obtain ⟨ih1, ih2, ih3⟩ := ih buf
    simp only [runBatches, hpb]
    refine ⟨ih1, ih2, ?_⟩
    intro e he
    rcases List.mem_append.mp he with h | h
    · cases u
      · simp at h
      · simp at h
        exact ⟨i, h⟩
    · exact ih3 e h

theorem runBatches_extract_strategy (a : Args) (env : Env) (u : Bool)
    (ps pt : PyBinding (List Nat)) (hfl : a.print_vanilla_alignment = true) :
    ∀ (L : List (Nat × Batch)) (buf : Buffer) (j : Nat) (s : Strategy),
      Event.extract j s ∈ (runBatches a env u ps pt L buf).2.1 →
      s = selectStrategy a.set_shift := by
  intro L
  induction L with
  | nil =>
    intro buf j s h
    simp [runBatches] at h
  | cons hd rest ih =>
    intro buf j s h
    obtain ⟨i, b⟩ := hd
    simp only [runBatches] at h
    cases herr : (processBatch a env u ps pt i b buf).2.2
    · rw [herr] at h
      dsimp only at h
      rcases List.mem_append.mp h with h | h
      · exact (processBatch_extract_mem a env u ps pt i b buf hfl j s h).2
      · exact ih _ j s h
    · rw [herr] at h
      dsimp only at h
      exact (processBatch_extract_mem a env u ps pt i b buf hfl j s h).2

theorem runBatches_no_append (a : Args) (env : Env) (u : Bool)
    (ps pt : PyBinding (List Nat)) (hfl : a.print_vanilla_alignment = false) :
    ∀ (L : List (Nat × Batch)) (buf : Buffer) (i : Nat) (r : String),
      Event.append i r ∉ (runBatches a env u ps pt L buf).2.1 := by
  intro L buf i r hmem
  obtain ⟨i', heq⟩ := (runBatches_no_vanilla a env u ps pt hfl L buf).2.2 _ hmem
  cases heq

theorem fillDefaultBudgets_print_vanilla (a : Args) :
    (fillDefaultBudgets a).print_vanilla_alignment = a.print_vanilla_alignment := by
  unfold fillDefaultBudgets
  split <;> rfl

theorem fillDefaultBudgets_decoding_path (a : Args) :
    (fillDefaultBudgets a).decoding_path = a.decoding_path := by
  unfold fillDefaultBudgets
  split <;> rfl

theorem fillDefaultBudgets_set_shift (a : Args) :
    (fillDefaultBudgets a).set_shift = a.set_shift := by
  unfold fillDefaultBudgets
  split <;> rfl

theorem fillDefaultBudgets_outputFilePath (a : Args) :
    outputFilePath (fillDefaultBudgets a) = outputFilePath a := by
  unfold outputFilePath fillDefaultBudgets
  split <;> rfl

theorem mainRun_invalid (a : Args) (env : Env) (msg : String)
    (hv : validateArgs a = .error msg) :
    mainRun a env =
      { events := [], files := [], error := some (.assertionError msg) } := by
  unfold mainRun
  rw [hv]

theorem mainRun_events_ok (a : Args) (env : Env) (v : Unit)
    (hv : validateArgs a = .ok v) :
    (mainRun a env).events =
      [Event.importUserModule, Event.loadDataset, Event.loadModels] ++
        (loopResult (fillDefaultBudgets a) env).2.1 := by
  unfold mainRun
  rw [hv]
  dsimp only
  cases herr : (loopResult (fillDefaultBudgets a) env).2.2
  · rw [apply_ite RunResult.events]
    dsimp only
    rw [ite_self]
  · rfl

theorem mainRun_error_ok (a : Args) (env : Env) (v : Unit)
    (hv : validateArgs a = .ok v) :
    (mainRun a env).error = (loopResult (fillDefaultBudgets a) env).2.2 := by
  unfold mainRun
  rw [hv]
  dsimp only
  cases herr : (loopResult (fillDefaultBudgets a) env).2.2
  · rw [apply_ite RunResult.error]
    dsimp only
    rw [ite_self]
  · rfl

theorem mainRun_files_ok (a : Args) (env : Env) (v : Unit)
    (hv : validateArgs a = .ok v)
    (herr : (loopResult (fillDefaultBudgets a) env).2.2 = none) :
    (mainRun a env).files =
      if (fillDefaultBudgets a).decoding_path.isSome &&
          (fillDefaultBudgets a).print_vanilla_alignment then
        [(outputFilePath (fillDefaultBudgets a),
          renderBuffer (loopBuffer (fillDefaultBudgets a) env))]
      else [] := by
  unfold mainRun
  rw [hv]
  dsimp only
  rw [herr]
  rw [apply_ite RunResult.files]
  rfl

theorem mainRun_files_err (a : Args) (env : Env) (v : Unit)
    (hv : validateArgs a = .ok v) (e : PyError)
    (herr : (loopResult (fillDefaultBudgets a) env).2.2 = some e) :
    (mainRun a env).files = [] := by
  unfold mainRun
  rw [hv]
  dsimp only
  rw [herr]

/-! ## C2: frame conditions of the alignment flag and the output path -/

/-- Claim C2: with `--print-vanilla-alignment` off, no result is ever
appended, the results buffer stays empty and no file is written,
whatever `--decoding-path` is; and with `--decoding-path` unset no file
is written, whatever the alignment flag is. -/
theorem alignment_frame_conditions :
    ∀ (a : Args) (env : Env),
      (a.print_vanilla_alignment = false →
        (∀ (i : Nat) (r : String), Event.append i r ∉ (mainRun a env).events) ∧
        (∀ j, loopBuffer (fillDefaultBudgets a) env j = []) ∧
        (mainRun a env).files = []) ∧
      (a.decoding_path = none → (mainRun a env).files = []) := by
  intro a env
  have hLR : loopResult (fillDefaultBudgets a) env =
      runBatches (fillDefaultBudgets a) env
        (env.cudaAvailable && !(fillDefaultBudgets a).cpu)
        (puncStage (fillDefaultBudgets a).print_vanilla_alignment
          env.srcDict env.tgtDict).1
        (puncStage (fillDefaultBudgets a).print_vanilla_alignment
          env.srcDict env.tgtDict).2
        env.batches.enum emptyBuffer := rfl
  constructor
  · intro hfl
    have hfl' : (fillDefaultBudgets a).print_vanilla_alignment = false := by
      rw [fillDefaultBudgets_print_vanilla]
      exact hfl
    obtain ⟨hbuf, herr2, hevs⟩ :=
      runBatches_no_vanilla (fillDefaultBudgets a) env
        (env.cudaAvailable && !(fillDefaultBudgets a).cpu)
        (puncStage (fillDefaultBudgets a).print_vanilla_alignment
          env.srcDict env.tgtDict).1
        (puncStage (fillDefaultBudgets a).print_vanilla_alignment
          env.srcDict env.tgtDict).2
        hfl' env.batches.enum emptyBuffer
    refine ⟨?_, ?_, ?_⟩
    · intro i r hmem
      cases hv : validateArgs a with
      | error msg =>
        rw [mainRun_invalid a env msg hv] at hmem
        simp at hmem
      | ok v =>
        rw [mainRun_events_ok a env v hv] at hmem
        rcases List.mem_append.mp hmem with h | h
        · simp at h
        · rw [hLR] at h
          obtain ⟨i', heq⟩ := hevs _ h
          cases heq
    · intro j
      unfold loopBuffer
      rw [hLR, hbuf]
      rfl
    · cases hv : validateArgs a with
      | error msg => rw [mainRun_invalid a env msg hv]
      | ok v =>
        cases herr3 : (loopResult (fillDefaultBudgets a) env).2.2 with
        | none =>
          rw [mainRun_files_ok a env v hv herr3]
          simp [hfl']
        | some e => exact mainRun_files_err a env v hv e herr3
  · intro hdp
    have hdp' : (fillDefaultBudgets a).decoding_path = none := by
      rw [fillDefaultBudgets_decoding_path]
      exact hdp
    cases hv : validateArgs a with
    | error msg => rw [mainRun_invalid a env msg hv]
    | ok v =>
      cases herr3 : (loopResult (fillDefaultBudgets a) env).2.2 with
      | none =>
        rw [mainRun_files_ok a env v hv herr3]
        simp [hdp']
      | some e => exact mainRun_files_err a env v hv e herr3

/-- Witness for C2: with the flag off nothing is appended and no file
appears; with no decoding path no file appears. -/
theorem alignment_frame_conditions_witness :
    Event.append 5 "A" ∉
      (mainRun { scenarioArgs with print_vanilla_alignment := false }
        scenarioEnv).events ∧
    (mainRun { scenarioArgs with print_vanilla_alignment := false }
      scenarioEnv).files = [] ∧
    (mainRun { scenarioArgs with decoding_path := none } scenarioEnv).files = [] :=
  ⟨((alignment_frame_conditions { scenarioArgs with print_vanilla_alignment := false }
      scenarioEnv).1 rfl).1 5 "A",
   ((alignment_frame_conditions { scenarioArgs with print_vanilla_alignment := false }
      scenarioEnv).1 rfl).2.2,
   (alignment_frame_conditions { scenarioArgs with decoding_path := none }
      scenarioEnv).2 rfl⟩

/-! ## C4: strategy dispatch -/

/-- Claim C4: with extraction requested, every batch that has model input
dispatches to exactly one extraction strategy, the one selected by
`--set-shift` (`shifted` when set, `noshift` otherwise), and every
extraction event of the whole run carries that same strategy — no mixing
within one run. -/
theorem strategy_dispatch :
    ∀ (a : Args) (env : Env),
      a.print_vanilla_alignment = true →
      (∀ (u : Bool) (ps pt : PyBinding (List Nat)) (i : Nat) (b : Batch)
          (buf : Buffer),
        b.hasNetInput = true →
        (processBatch a env u ps pt i b buf).2.1.filter isExtractEvent =
          [Event.extract i (selectStrategy a.set_shift)]) ∧
      (∀ (i : Nat) (s : Strategy),
        Event.extract i s ∈ (mainRun a env).events →
        s = selectStrategy a.set_shift) := by
  intro a env hfl
  constructor
  · intro u ps pt i b buf hb
    exact processBatch_one_extract a env u ps pt i b buf hfl hb
  · intro i s hmem
    cases hv : validateArgs a with
    | error msg =>
      rw [mainRun_invalid a env msg hv] at hmem
      simp at hmem
    | ok v =>
      rw [mainRun_events_ok a env v hv] at hmem
      rcases List.mem_append.mp hmem with h | h
      · simp at h
      · have hfl' : (fillDefaultBudgets a).print_vanilla_alignment = true := by
          rw [fillDefaultBudgets_print_vanilla]
          exact hfl
        have hs := runBatches_extract_strategy (fillDefaultBudgets a) env
          (env.cudaAvailable && !(fillDefaultBudgets a).cpu)
          (puncStage (fillDefaultBudgets a).print_vanilla_alignment
            env.srcDict env.tgtDict).1
          (puncStage (fillDefaultBudgets a).print_vanilla_alignment
            env.srcDict env.tgtDict).2
          hfl' env.batches.enum emptyBuffer i s h
        rw [fillDefaultBudgets_set_shift] at hs
        exact hs

/-- Witness for C4: the first scenario batch dispatches exactly once, to
the non-shifted strategy selected by the configuration. -/
theorem strategy_dispatch_witness :
    (processBatch scenarioArgs scenarioEnv false .pyNone .unbound 0
        { hasNetInput := true, ids := [5] } emptyBuffer).2.1.filter isExtractEvent =
      [Event.extract 0 (selectStrategy scenarioArgs.set_shift)] :=
  (strategy_dispatch scenarioArgs scenarioEnv rfl).1 false .pyNone .unbound 0
    { hasNetInput := true, ids := [5] } emptyBuffer rfl

/-! ## C7: sentinel batches and the device transfer -/

/-- Counterexample to C7 as stated: with CUDA enabled and a single batch
lacking model input (an end-of-epoch sentinel), the trace of the run contains
the device transfer of that batch — the transfer of line 99 happens
before the `net_input` check of line 100, so the skip does not precede
the device transfer. -/
theorem sentinel_transfer_cex :
    (sentinelEnv.batches.getD 0 { hasNetInput := true, ids := [] }).hasNetInput
      = false ∧
    Event.moveToCuda 0 ∈
      (mainRun
        { scenarioArgs with
            cpu := false
            print_vanilla_alignment := false
            decoding_path := none }
        sentinelEnv).events := by
  constructor
  · rfl
  · decide

/-- Claim C7 (amended): a batch lacking model input is skipped before any
extraction and any buffering — its processing leaves the buffer unchanged,
raises no error and emits no event other than the device transfer — but
the transfer to the accelerator does happen for it whenever device
acceleration is enabled, because the transfer precedes the skip check. -/
theorem sentinel_skip_after_transfer :
    ∀ (a : Args) (env : Env) (u : Bool) (ps pt : PyBinding (List Nat))
      (i : Nat) (b : Batch) (buf : Buffer),
      b.hasNetInput = false →
      processBatch a env u ps pt i b buf =
        (buf, if u then [Event.moveToCuda i] else [], none) :=
  fun a env u ps pt i b buf h => processBatch_no_input a env u ps pt i b buf h

/-- Witness for the amended C7: the sentinel batch under CUDA produces
exactly the transfer event and nothing else. -/
theorem sentinel_skip_after_transfer_witness :
    processBatch scenarioArgs sentinelEnv true .pyNone .unbound 0
      { hasNetInput := false, ids := [] } emptyBuffer =
      (emptyBuffer, if true then [Event.moveToCuda 0] else [], none) :=
  sentinel_skip_after_transfer scenarioArgs sentinelEnv true .pyNone .unbound 0
    { hasNetInput := false, ids := [] } emptyBuffer rfl

/-! ## C1: the output stage -/

/-- Claim C1: when an output directory is configured, extraction was
requested and the run completes without error, exactly one file is
written, at `<decoding-path>/<gen_subset>.<source_lang>2<target_lang>.align`,
and its content renders the final buffer in ascending slot order with one
line per buffered result (append order within a slot, a trailing newline
per line, nothing at all for empty slots) — `renderBuffer` coincides with
the flattened ascending-order line list `specContent` on every buffer. -/
theorem output_stage_single_file :
    ∀ (a : Args) (env : Env) (dp : String) (buf : Buffer),
      a.decoding_path = some dp →
      a.print_vanilla_alignment = true →
      (mainRun a env).error = none →
      (mainRun a env).files =
        [(pathJoin dp (a.gen_subset ++ "." ++ a.source_lang ++ "2" ++
            a.target_lang ++ ".align"),
          renderBuffer (loopBuffer (fillDefaultBudgets a) env))] ∧
      renderBuffer buf = specContent buf := by
  intro a env dp buf hdp hfl herr
  refine ⟨?_, renderBuffer_eq_specContent buf⟩
  cases hv : validateArgs a with
  | error msg =>
    rw [mainRun_invalid a env msg hv] at herr
    simp at herr
  | ok v =>
    have herr2 : (loopResult (fillDefaultBudgets a) env).2.2 = none := by
      rw [mainRun_error_ok a env v hv] at herr
      exact herr
    rw [mainRun_files_ok a env v hv herr2]
    have hdp' : (fillDefaultBudgets a).decoding_path = some dp := by
      rw [fillDefaultBudgets_decoding_path]
      exact hdp
    have hfl' : (fillDefaultBudgets a).print_vanilla_alignment = true := by
      rw [fillDefaultBudgets_print_vanilla]
      exact hfl
    rw [if_pos (by rw [hdp', hfl']; rfl)]
    rw [fillDefaultBudgets_outputFilePath]
    unfold outputFilePath
    rw [hdp]
    rfl

/-- Witness for C1: the two-batch scenario writes its single file at
`out/test.de2en.align`. -/
theorem output_stage_single_file_witness :
    (mainRun scenarioArgs scenarioEnv).files =
      [(pathJoin "out" (scenarioArgs.gen_subset ++ "." ++
          scenarioArgs.source_lang ++ "2" ++ scenarioArgs.target_lang ++
          ".align"),
        renderBuffer (loopBuffer (fillDefaultBudgets scenarioArgs) scenarioEnv))] ∧
    renderBuffer emptyBuffer = specContent emptyBuffer :=
  output_stage_single_file scenarioArgs scenarioEnv "out" emptyBuffer rfl rfl rfl

end GenAlign
